import Mathlib

/-!
# Verification of the realsense-rust resource-lifetime and error-propagation core

This development gives a shallow embedding of the wrapper layer in
`src/device.rs`, `src/sensor.rs`, `src/frame/image.rs`, `src/frame/points.rs`
and `src/error.rs`, and proves the lifetime / error-handling properties stated
in the specification.

Modelling conventions:

* A native call that follows the librealsense convention "return a primary
  result and fill a `*mut rs2_error` out-parameter on failure" is modelled as
  `Except Rs2Err α`: `.error e` is the case where the out-parameter was filled
  (`e` carries the exception kind and message extracted from the error object
  before it is freed), `.ok a` is the case where it stayed null.
* Native handles (`*mut rs2_sensor`, `*mut rs2_frame`, ...) are modelled as
  `Nat` identifiers; they are never dereferenced by the wrapper layer.
* `f32`/`f64` payloads (option values, timestamps) are stored and returned by
  the code but never computed with, so they are modelled as opaque `Int`
  stand-ins (`FloatVal`), keeping every definition decidable.
* Side effects on native resources (deletes / releases / the one mutating set
  call) are made explicit as `NativeCall` traces returned alongside results.
* Rust `panic!` / `unwrap` / active `debug_assert!` outcomes are modelled by
  the `RunResult` wrapper.
-/

/-- Exception categories reported by the native library.
Modelled from the spec: `kind/exception.rs` is not under `src/`; the spec
treats the enumeration tables as pure data, so a representative set of
variants is used (the wrapper code is parametric in the variant). -/
inductive Rs2Exception where
  | unknown
  | cameraDisconnected
  | backend
  | invalidValue
  | wrongApiCallSequence
  | notImplemented
  | deviceInRecoveryMode
  | io
  deriving DecidableEq, Repr

/-- The information extracted from a filled `rs2_error` out-parameter before
the error object is freed: the exception category and the human-readable
message (spec 4.1, `check_rs2_error!`). -/
structure Rs2Err where
  exception : Rs2Exception
  message : String
  deriving DecidableEq, Repr

/-- Opaque stand-in for `f32`/`f64` payloads, which the wrapper layer stores
and returns but never computes with. -/
abbrev FloatVal := Int

/-- Option keys. Modelled from the spec: `kind/option.rs` is not under
`src/`; the option table is pure enumeration data, so representative keys are
included (the wrapper code is parametric in the key). -/
inductive Rs2Option where
  | depthUnits
  | exposure
  | gain
  deriving DecidableEq, Repr

/-- Camera-info keys. Modelled from the spec: `kind/camera_info.rs` is not
under `src/`; representative keys are included. -/
inductive Rs2CameraInfo where
  | serialNumber
  | firmwareVersion
  | productLine
  deriving DecidableEq, Repr

/-- Frame-metadata keys, from `src/kind/frame_metadata.rs` (the numeric
`repr` values come from the external `realsense-sys` constants and are not
needed by any claim). -/
inductive Rs2FrameMetadata where
  | frameCounter
  | frameTimestamp
  | sensorTimestamp
  | actualExposure
  | gainLevel
  | autoExposure
  | whiteBalance
  | timeOfArrival
  | temperature
  | backendTimestamp
  | actualFps
  | frameLaserPower
  | frameLaserPowerMode
  | exposurePriority
  | exposureRoiLeft
  | exposureRoiRight
  | exposureRoiTop
  | exposureRoiBottom
  | brightness
  | contrast
  | saturation
  | sharpness
  | autoWhiteBalanceTemperature
  | backlightCompensation
  | hue
  | gamma
  | manualWhiteBalance
  | powerLineFrequency
  | lowLightCompensation
  | frameEmitterMode
  | frameLedPower
  | rawFrameSize
  | gpioInputData
  | sequenceName
  | sequenceIdentifier
  | sequenceSize
  | trigger
  | preset
  | inputWidth
  | inputHeight
  | subPresetInfo
  | calibInfo
  | crc
  deriving DecidableEq, Repr

/-- Timestamp domains, from `src/kind/timestamp_domain.rs`. -/
inductive Rs2TimestampDomain where
  | hardwareClock
  | systemTime
  | globalTime
  deriving DecidableEq, Repr

/-- `Rs2TimestampDomain::from_i32` (derived `FromPrimitive` over the `repr`
values `RS2_TIMESTAMP_DOMAIN_HARDWARE_CLOCK = 0`, `SYSTEM_TIME = 1`,
`GLOBAL_TIME = 2`): out-of-range values map to `none`. -/
def Rs2TimestampDomain.from_i32 (v : Int) : Option Rs2TimestampDomain :=
  if v = 0 then some .hardwareClock
  else if v = 1 then some .systemTime
  else if v = 2 then some .globalTime
  else none

/-- Extension tags. Modelled from the spec: `kind/extension.rs` is not under
`src/`; the sensor-extension allowlist `SENSOR_EXTENSIONS` is a fixed list of
tags, and `src` also names the frame extensions `DepthFrame`,
`DisparityFrame`, `VideoFrame` and `Points`. -/
inductive Rs2Extension where
  | colorSensor
  | motionSensor
  | fishEyeSensor
  | depthSensor
  | depthStereoSensor
  | softwareSensor
  | poseSensor
  | depthFrame
  | disparityFrame
  | videoFrame
  | points
  deriving DecidableEq, Repr

/-- The fixed sensor-extension allowlist searched by `Sensor::extension`.
Modelled from the spec (`kind/extension.rs` is not under `src/`): a fixed
list of sensor-extension tags. -/
def SENSOR_EXTENSIONS : List Rs2Extension :=
  [.colorSensor, .motionSensor, .fishEyeSensor, .depthSensor,
   .depthStereoSensor, .softwareSensor, .poseSensor]

/-- Pixel/data formats. Modelled from the spec: `kind/format.rs` is not under
`src/`; representative formats are included. -/
inductive Rs2Format where
  | z16
  | rgb8
  | distance
  deriving DecidableEq, Repr

/-- Stream profile wrapper. Modelled from the spec: `stream_profile.rs` is
not under `src/`; the spec (section 3) describes it as a borrowed wrapper of a
profile handle carrying the stream's kind/format/resolution/rate. Only the
fields the code under `src/` reads are retained: the handle and the format
(`ImageFrame::get_unchecked` reads `frame_stream_profile.format()`). -/
structure StreamProfile where
  ptr : Nat
  format : Rs2Format
  deriving DecidableEq, Repr

/-- `SensorConstructionError` from `src/sensor.rs`. -/
inductive SensorConstructionError where
  | couldNotGetSensorFromList (kind : Rs2Exception) (reason : String)
  deriving DecidableEq, Repr

/-- `OptionSetError` variants as used by `Sensor::set_option` in
`src/sensor.rs` (declared in `kind/option.rs`, which is not under `src/`;
the three variants and their payloads are fully determined by the uses in
`src/sensor.rs`). -/
inductive OptionSetError where
  | optionNotSupported
  | optionIsReadOnly
  | couldNotSetOption (kind : Rs2Exception) (reason : String)
  deriving DecidableEq, Repr

/-- `FrameConstructionError` variants as used by the frame constructors in
`src/frame/image.rs` and `src/frame/points.rs` (declared in the frame
prelude, which is not under `src/`; every variant and its payload is fully
determined by the `check_rs2_error!` uses under `src/`). -/
inductive FrameConstructionError where
  | couldNotGetWidth (kind : Rs2Exception) (reason : String)
  | couldNotGetHeight (kind : Rs2Exception) (reason : String)
  | couldNotGetBitsPerPixel (kind : Rs2Exception) (reason : String)
  | couldNotGetStride (kind : Rs2Exception) (reason : String)
  | couldNotGetTimestamp (kind : Rs2Exception) (reason : String)
  | couldNotGetTimestampDomain (kind : Rs2Exception) (reason : String)
  | couldNotGetFrameNumber (kind : Rs2Exception) (reason : String)
  | couldNotGetFrameStreamProfile (kind : Rs2Exception) (reason : String)
  | couldNotGetDataSize (kind : Rs2Exception) (reason : String)
  | couldNotGetData (kind : Rs2Exception) (reason : String)
  | couldNotGetPointCount (kind : Rs2Exception) (reason : String)
  deriving DecidableEq, Repr

/-- Error of the recursive stream-profile construction. Modelled from the
spec: `StreamProfile::try_from` is not under `src/`; the spec says profile
construction is fallible with a constructor-specific error. -/
inductive StreamProfileConstructionError where
  | couldNotRetrieveStreamData (kind : Rs2Exception) (reason : String)
  deriving DecidableEq, Repr

/-- The `anyhow::Error` that `ImageFrame::try_from` / `PointsFrame::try_from`
return: either a frame-construction error or a propagated stream-profile
construction error (the `?` on `StreamProfile::try_from`). -/
inductive TryFromError where
  | frame (e : FrameConstructionError)
  | profile (e : StreamProfileConstructionError)
  deriving DecidableEq, Repr

/-- The release / mutation calls the wrapper layer makes into the native
library.  Advisory read-only queries are not recorded; these are exactly the
calls whose multiplicity the lifetime properties are about. -/
inductive NativeCall where
  | deleteSensor (p : Nat)
  | releaseFrame (p : Nat)
  | deleteSensorList (p : Nat)
  | deleteStreamProfilesList (p : Nat)
  | setOption (o : Rs2Option) (v : FloatVal)
  deriving DecidableEq, Repr

/-- Outcome of running a Rust function that contains reachable `unwrap` /
active `debug_assert!` sites: either a panic or a returned value. -/
inductive RunResult (α : Type) where
  | panicked (msg : String)
  | value (a : α)
  deriving DecidableEq, Repr

/-- `check_rs2_error!(err, Ctor)` — modelled from the spec (the macro lives
in `base.rs`, not under `src/`; spec 4.1): if the out-parameter was filled,
build the call-site-specific failure from the exception kind and message and
free the error object, else pass the primary result through. -/
def check_rs2_error {α β : Type} (r : Except Rs2Err α)
    (ctor : Rs2Exception → String → β) : Except β α :=
  match r with
  | .error e => .error (ctor e.exception e.message)
  | .ok a => .ok a

/-- `usize` view of a native `c_int` result (Rust `as usize` on `i32`:
sign-extend, then reinterpret in 64 bits). -/
def usizeOfI32 (x : Int) : Nat :=
  if 0 ≤ x then x.toNat else (2 ^ 64 + x).toNat

/-! ## Sensor (`src/sensor.rs`) -/

/-- The `Sensor` wrapper: the underlying non-null sensor pointer and the
`should_drop` flag telling `Drop` whether to delete it. -/
structure Sensor where
  sensor_ptr : Nat
  should_drop : Bool
  deriving DecidableEq, Repr

/-- `impl From<NonNull<rs2_sensor>> for Sensor`: borrowed construction,
`should_drop = false`. -/
def Sensor.fromPtr (sensor_ptr : Nat) : Sensor :=
  { sensor_ptr := sensor_ptr, should_drop := false }

/-- The native calls emitted by `impl Drop for Sensor`: delete the sensor
pointer iff `should_drop` is set. -/
def Sensor.dropCalls (s : Sensor) : List NativeCall :=
  if s.should_drop then [.deleteSensor s.sensor_ptr] else []

/-- `Sensor::try_create(sensor_list, index)`: call `rs2_create_sensor`,
convert a filled error via `check_rs2_error!` into
`CouldNotGetSensorFromList`, otherwise wrap the new pointer with
`Sensor::from` and then set `should_drop = true`.  The native behaviour of
`rs2_create_sensor` on this list is the function `create_sensor`. -/
def Sensor.try_create (create_sensor : Int → Except Rs2Err Nat) (index : Int) :
    Except SensorConstructionError Sensor :=
  match check_rs2_error (create_sensor index) SensorConstructionError.couldNotGetSensorFromList with
  | .error e => .error e
  | .ok p =>
    let sensor := Sensor.fromPtr p
    .ok { sensor with should_drop := true }

/-- The native behaviour backing one `Sensor`'s advisory and mutating calls:
each field is one native entry point on this sensor's handle, as an
error-out-parameter call. -/
structure SensorEnv where
  rs2_supports_option : Rs2Option → Except Rs2Err Int
  rs2_is_option_read_only : Rs2Option → Except Rs2Err Int
  rs2_get_option : Rs2Option → Except Rs2Err FloatVal
  rs2_set_option : Rs2Option → FloatVal → Except Rs2Err Unit
  rs2_is_sensor_extendable_to : Rs2Extension → Except Rs2Err Int
  rs2_supports_sensor_info : Rs2CameraInfo → Except Rs2Err Int
  rs2_get_sensor_info : Rs2CameraInfo → Except Rs2Err String
  rs2_get_stream_profiles : Except Rs2Err Nat
  rs2_get_stream_profiles_count : Except Rs2Err Int
  profile_try_create : Int → Except StreamProfileConstructionError StreamProfile

/-- `Sensor::supports_option`: `rs2_supports_option` result `!= 0`; a filled
error is freed and yields `false`. -/
def Sensor.supports_option (env : SensorEnv) (option : Rs2Option) : Bool :=
  match env.rs2_supports_option option with
  | .ok v => v ≠ 0
  | .error _ => false

/-- `Sensor::is_option_read_only`: `false` if the option is unsupported, else
`rs2_is_option_read_only` result `!= 0`, with a filled error freed and
yielding `false`. -/
def Sensor.is_option_read_only (env : SensorEnv) (option : Rs2Option) : Bool :=
  if ¬ Sensor.supports_option env option then false
  else
    match env.rs2_is_option_read_only option with
    | .ok v => v ≠ 0
    | .error _ => false

/-- `Sensor::get_option`: `None` if the option is unsupported, else the
`rs2_get_option` value, with a filled error freed and yielding `None`. -/
def Sensor.get_option (env : SensorEnv) (option : Rs2Option) : Option FloatVal :=
  if ¬ Sensor.supports_option env option then none
  else
    match env.rs2_get_option option with
    | .ok v => some v
    | .error _ => none

/-- `Sensor::set_option`: `OptionNotSupported` if unsupported,
`OptionIsReadOnly` if read-only — both before the native set call — else
`rs2_set_option` with a filled error converted to `CouldNotSetOption`.  The
second component records the mutating native calls issued. -/
def Sensor.set_option (env : SensorEnv) (option : Rs2Option) (value : FloatVal) :
    Except OptionSetError Unit × List NativeCall :=
  if ¬ Sensor.supports_option env option then
    (.error .optionNotSupported, [])
  else if Sensor.is_option_read_only env option then
    (.error .optionIsReadOnly, [])
  else
    match check_rs2_error (env.rs2_set_option option value) OptionSetError.couldNotSetOption with
    | .error e => (.error e, [.setOption option value])
    | .ok _ => (.ok (), [.setOption option value])

/-- `Sensor::supports_info`: `rs2_supports_sensor_info` result `!= 0`; a
filled error is freed and yields `false`. -/
def Sensor.supports_info (env : SensorEnv) (camera_info : Rs2CameraInfo) : Bool :=
  match env.rs2_supports_sensor_info camera_info with
  | .ok v => v ≠ 0
  | .error _ => false

/-- `Sensor::info`: `None` if `supports_info` is false, else the
`rs2_get_sensor_info` string, with a filled error freed and yielding
`None`. -/
def Sensor.info (env : SensorEnv) (camera_info : Rs2CameraInfo) : Option String :=
  if ¬ Sensor.supports_info env camera_info then none
  else
    match env.rs2_get_sensor_info camera_info with
    | .ok v => some v
    | .error _ => none

/-- The predicate `Sensor::extension` applies to each allowlisted extension:
`rs2_is_sensor_extendable_to` result `!= 0`, with a filled error freed and
counting as `false`. -/
def Sensor.extendableToBool (env : SensorEnv) (ext : Rs2Extension) : Bool :=
  match env.rs2_is_sensor_extendable_to ext with
  | .ok v => v ≠ 0
  | .error _ => false

/-- `Sensor::extension`: find the extension in `SENSOR_EXTENSIONS` that the
native object answers yes to.  The source calls `.unwrap()` on the search
result; `none` here is exactly the panic case. -/
def Sensor.extension (env : SensorEnv) : Option Rs2Extension :=
  SENSOR_EXTENSIONS.find? (Sensor.extendableToBool env)

/-- `Sensor::stream_profiles`: query the profile list (empty vector on a
filled error), query its count (empty vector on a filled error, after
deleting the list), construct each element with `StreamProfile::try_create`,
silently skipping failures, and delete the list before returning.  Returns
the profiles together with the release calls issued. -/
def Sensor.stream_profiles (env : SensorEnv) : List StreamProfile × List NativeCall :=
  match env.rs2_get_stream_profiles with
  | .error _ => ([], [])
  | .ok listPtr =>
    match env.rs2_get_stream_profiles_count with
    | .error _ => ([], [.deleteStreamProfilesList listPtr])
    | .ok len =>
      ((List.range len.toNat).filterMap
          (fun i => (env.profile_try_create (Int.ofNat i)).toOption),
        [.deleteStreamProfilesList listPtr])

/-! ## Device (`src/device.rs`) -/

/-- The native behaviour backing one `Device`'s calls, one field per native
entry point on this device's handle. -/
structure DeviceEnv where
  rs2_query_sensors : Except Rs2Err Nat
  rs2_get_sensors_count : Except Rs2Err Int
  rs2_create_sensor : Int → Except Rs2Err Nat
  rs2_supports_device_info : Rs2CameraInfo → Except Rs2Err Int
  rs2_get_device_info : Rs2CameraInfo → Except Rs2Err String

/-- `Device::sensors`: query the sensor list (empty vector on a filled
error), query its count (empty vector on a filled error, after deleting the
list), construct each element with `Sensor::try_create`, silently skipping
failures, and delete the list before returning.  Returns the sensors
together with the release calls issued. -/
def Device.sensors (env : DeviceEnv) : List Sensor × List NativeCall :=
  match env.rs2_query_sensors with
  | .error _ => ([], [])
  | .ok listPtr =>
    match env.rs2_get_sensors_count with
    | .error _ => ([], [.deleteSensorList listPtr])
    | .ok len =>
      ((List.range len.toNat).filterMap
          (fun i => (Sensor.try_create env.rs2_create_sensor (Int.ofNat i)).toOption),
        [.deleteSensorList listPtr])

/-- `Device::supports_info`: `rs2_supports_device_info` result `!= 0`; a
filled error is freed and yields `false`. -/
def Device.supports_info (env : DeviceEnv) (camera_info : Rs2CameraInfo) : Bool :=
  match env.rs2_supports_device_info camera_info with
  | .ok v => v ≠ 0
  | .error _ => false

/-- `Device::info`: `None` if `supports_info` is false, else the
`rs2_get_device_info` string, with a filled error freed and yielding
`None`. -/
def Device.info (env : DeviceEnv) (camera_info : Rs2CameraInfo) : Option String :=
  if ¬ Device.supports_info env camera_info then none
  else
    match env.rs2_get_device_info camera_info with
    | .ok v => some v
    | .error _ => none

/-! ## Image frames (`src/frame/image.rs`) -/

/-- The decoded pixel returned by `get_pixel`.  Modelled from the spec:
`frame/pixel.rs` is not under `src/`; the spec describes `get_pixel` as an
unchecked pixel decode fully determined by the frame's format, buffer size,
data pointer, stride and the requested `(col, row)`, so the decode result is
represented symbolically by exactly those inputs. -/
structure PixelKind where
  format : Rs2Format
  dataSizeInBytes : Nat
  dataPtr : Nat
  stride : Nat
  col : Nat
  row : Nat
  deriving DecidableEq, Repr

/-- `get_pixel` from `frame/pixel.rs` (see `PixelKind`): the symbolic decode
of the pixel at `(col, row)`. -/
def get_pixel (format : Rs2Format) (dataSizeInBytes : Nat) (dataPtr : Nat)
    (stride : Nat) (col : Nat) (row : Nat) : PixelKind :=
  { format := format, dataSizeInBytes := dataSizeInBytes, dataPtr := dataPtr,
    stride := stride, col := col, row := row }

/-- The `ImageFrame<Kind>` wrapper from `src/frame/image.rs`.  The `Kind`
type parameter of the Rust struct is phantom (`PhantomData<Kind>`, no runtime
content), so it is dropped here; `DepthFrame`, `ColorFrame`, ... all share
this runtime representation. -/
structure ImageFrame where
  frame_ptr : Nat
  width : Nat
  height : Nat
  stride : Nat
  bits_per_pixel : Nat
  timestamp : FloatVal
  timestamp_domain : Rs2TimestampDomain
  frame_number : Nat
  frame_stream_profile : StreamProfile
  data_size_in_bytes : Nat
  data : Nat
  should_drop : Bool
  deriving DecidableEq, Repr

/-- The native behaviour of the raw `rs2_frame` handle an image frame is
constructed from: one field per metadata query (each a `c_int`/`f64`/... with
an error out-parameter), plus the recursive `StreamProfile::try_from`
construction (`profile_construct`, modelled from the spec since
`stream_profile.rs` is not under `src/`). -/
structure ImageFrameBackend where
  rs2_get_frame_width : Except Rs2Err Int
  rs2_get_frame_height : Except Rs2Err Int
  rs2_get_frame_bits_per_pixel : Except Rs2Err Int
  rs2_get_frame_stride_in_bytes : Except Rs2Err Int
  rs2_get_frame_timestamp : Except Rs2Err FloatVal
  rs2_get_frame_timestamp_domain : Except Rs2Err Int
  rs2_get_frame_number : Except Rs2Err Nat
  rs2_get_frame_stream_profile : Except Rs2Err Nat
  profile_construct : Nat → Except StreamProfileConstructionError StreamProfile
  rs2_get_frame_data_size : Except Rs2Err Int
  rs2_get_frame_data : Except Rs2Err Nat

/-- The fallible metadata queries performed by frame construction, used to
record the order in which they are issued. -/
inductive FrameQuery where
  | width
  | height
  | bitsPerPixel
  | stride
  | timestamp
  | timestampDomain
  | frameNumber
  | streamProfile
  | dataSize
  | data
  | pointsCount
  | vertices
  | textureCoordinates
  deriving DecidableEq, Repr

/-- The order in which `ImageFrame::try_from` issues its native queries. -/
def imageQueryOrder : List FrameQuery :=
  [.width, .height, .bitsPerPixel, .stride, .timestamp, .timestampDomain,
   .frameNumber, .streamProfile, .dataSize, .data]

/-- `impl TryFrom<NonNull<rs2_frame>> for ImageFrame<K>`, translated query by
query from `src/frame/image.rs`: width, height, bits-per-pixel, stride,
timestamp, timestamp domain, frame number, stream profile (recursively
constructed), data size — then the active `debug_assert_eq!(size,
width * height * bits_per_pixel / BITS_PER_BYTE)` (debug-build semantics,
`c_int` arithmetic with Rust's truncating division) — then the data pointer,
and finally `Rs2TimestampDomain::from_i32(..).unwrap()` inside the struct
literal.  The first filled error aborts with the field-tagged
`FrameConstructionError`; a failing `unwrap` / `debug_assert` is a
`.panicked` outcome.  The second component is the list of queries issued, in
order. -/
def ImageFrame.try_from (frame_ptr : Nat) (b : ImageFrameBackend) :
    RunResult (Except TryFromError ImageFrame) × List FrameQuery :=
  match b.rs2_get_frame_width with
  | .error e => (.value (.error (.frame (.couldNotGetWidth e.exception e.message))),
      [.width])
  | .ok width =>
  match b.rs2_get_frame_height with
  | .error e => (.value (.error (.frame (.couldNotGetHeight e.exception e.message))),
      [.width, .height])
  | .ok height =>
  match b.rs2_get_frame_bits_per_pixel with
  | .error e => (.value (.error (.frame (.couldNotGetBitsPerPixel e.exception e.message))),
      [.width, .height, .bitsPerPixel])
  | .ok bits_per_pixel =>
  match b.rs2_get_frame_stride_in_bytes with
  | .error e => (.value (.error (.frame (.couldNotGetStride e.exception e.message))),
      [.width, .height, .bitsPerPixel, .stride])
  | .ok stride =>
  match b.rs2_get_frame_timestamp with
  | .error e => (.value (.error (.frame (.couldNotGetTimestamp e.exception e.message))),
      [.width, .height, .bitsPerPixel, .stride, .timestamp])
  | .ok timestamp =>
  match b.rs2_get_frame_timestamp_domain with
  | .error e => (.value (.error (.frame (.couldNotGetTimestampDomain e.exception e.message))),
      [.width, .height, .bitsPerPixel, .stride, .timestamp, .timestampDomain])
  | .ok timestamp_domain =>
  match b.rs2_get_frame_number with
  | .error e => (.value (.error (.frame (.couldNotGetFrameNumber e.exception e.message))),
      [.width, .height, .bitsPerPixel, .stride, .timestamp, .timestampDomain,
       .frameNumber])
  | .ok frame_number =>
  match b.rs2_get_frame_stream_profile with
  | .error e => (.value (.error (.frame (.couldNotGetFrameStreamProfile e.exception e.message))),
      [.width, .height, .bitsPerPixel, .stride, .timestamp, .timestampDomain,
       .frameNumber, .streamProfile])
  | .ok profile_ptr =>
  match b.profile_construct profile_ptr with
  | .error pe => (.value (.error (.profile pe)),
      [.width, .height, .bitsPerPixel, .stride, .timestamp, .timestampDomain,
       .frameNumber, .streamProfile])
  | .ok profile =>
  match b.rs2_get_frame_data_size with
  | .error e => (.value (.error (.frame (.couldNotGetDataSize e.exception e.message))),
      [.width, .height, .bitsPerPixel, .stride, .timestamp, .timestampDomain,
       .frameNumber, .streamProfile, .dataSize])
  | .ok size =>
  if size ≠ (width * height * bits_per_pixel).tdiv 8 then
    (.panicked "debug_assert_eq: size == width * height * bits_per_pixel / BITS_PER_BYTE",
      [.width, .height, .bitsPerPixel, .stride, .timestamp, .timestampDomain,
       .frameNumber, .streamProfile, .dataSize])
  else
  match b.rs2_get_frame_data with
  | .error e => (.value (.error (.frame (.couldNotGetData e.exception e.message))),
      imageQueryOrder)
  | .ok data_ptr =>
  match Rs2TimestampDomain.from_i32 timestamp_domain with
  | none => (.panicked "Rs2TimestampDomain::from_i32 returned None", imageQueryOrder)
  | some domain =>
    (.value (.ok
      { frame_ptr := frame_ptr
        width := usizeOfI32 width
        height := usizeOfI32 height
        stride := usizeOfI32 stride
        bits_per_pixel := usizeOfI32 bits_per_pixel
        timestamp := timestamp
        timestamp_domain := domain
        frame_number := frame_number
        frame_stream_profile := profile
        data_size_in_bytes := usizeOfI32 size
        data := data_ptr
        should_drop := true }), imageQueryOrder)

/-- The native calls emitted by `impl Drop for ImageFrame<K>`: release the
frame iff `should_drop` is set. -/
def ImageFrame.dropCalls (f : ImageFrame) : List NativeCall :=
  if f.should_drop then [.releaseFrame f.frame_ptr] else []

/-- `FrameEx::get_owned_raw` for image frames: consume the wrapper, clear
`should_drop`, and hand out the bare frame handle.  The returned wrapper
state is what Rust drops at the end of the call. -/
def ImageFrame.get_owned_raw (f : ImageFrame) : Nat × ImageFrame :=
  (f.frame_ptr, { f with should_drop := false })

/-- `ImageFrame::get_unchecked`: decode the pixel at `(col, row)` from the
raw buffer, using the stream profile's format, the cached data size, the data
pointer and the stride. -/
def ImageFrame.get_unchecked (f : ImageFrame) (col row : Nat) : PixelKind :=
  get_pixel f.frame_stream_profile.format f.data_size_in_bytes f.data f.stride col row

/-- `ImageFrame::get`: `None` when `col >= width || row >= height`, else
`Some` of the unchecked decode. -/
def ImageFrame.get (f : ImageFrame) (col row : Nat) : Option PixelKind :=
  if f.width ≤ col ∨ f.height ≤ row then none
  else some (f.get_unchecked col row)

/-- The `Iter` state over an image frame: the frame and the current column
and row. -/
structure Iter where
  frame : ImageFrame
  column : Nat
  row : Nat
  deriving DecidableEq, Repr

/-- `impl Iterator for Iter`: `None` once `column >= width || row >= height`;
otherwise yield `get_unchecked(column, row)`, advance the column, and wrap to
the start of the next row when the column reaches the width. -/
def Iter.next (it : Iter) : Option (PixelKind × Iter) :=
  if it.frame.width ≤ it.column ∨ it.frame.height ≤ it.row then none
  else
    let item := it.frame.get_unchecked it.column it.row
    let column := it.column + 1
    if it.frame.width ≤ column then
      some (item, { frame := it.frame, column := 0, row := it.row + 1 })
    else
      some (item, { frame := it.frame, column := column, row := it.row })

/-- `ImageFrame::iter` (also `IntoIterator::into_iter` for `&ImageFrame`):
start at column 0, row 0. -/
def ImageFrame.iter (f : ImageFrame) : Iter :=
  { frame := f, column := 0, row := 0 }

/-- The `k`-th item produced by repeatedly calling `Iter::next` from a given
state (`k = 0` is the next item). -/
def Iter.nth (it : Iter) : Nat → Option PixelKind
  | 0 => it.next.map Prod.fst
  | k + 1 =>
    match it.next with
    | none => none
    | some (_, it') => it'.nth k

/-- The native behaviour of a frame handle's post-construction metadata
queries (`rs2_supports_frame_metadata` / `rs2_get_frame_metadata`, both on
the stored `frame_ptr`). -/
structure FrameMetadataEnv where
  rs2_supports_frame_metadata : Rs2FrameMetadata → Except Rs2Err Int
  rs2_get_frame_metadata : Rs2FrameMetadata → Except Rs2Err Int

/-- `FrameEx::supports_metadata` (identical bodies in `src/frame/image.rs`
and `src/frame/points.rs`): `rs2_supports_frame_metadata` result `!= 0`; a
filled error is freed and yields `false`. -/
def ImageFrame.supports_metadata (env : FrameMetadataEnv)
    (metadata_kind : Rs2FrameMetadata) : Bool :=
  match env.rs2_supports_frame_metadata metadata_kind with
  | .ok v => v ≠ 0
  | .error _ => false

/-- `FrameEx::metadata`: `None` if `supports_metadata` is false, else the
`rs2_get_frame_metadata` value (`c_longlong`), with a filled error freed and
yielding `None`. -/
def ImageFrame.metadata (env : FrameMetadataEnv)
    (metadata_kind : Rs2FrameMetadata) : Option Int :=
  if ¬ ImageFrame.supports_metadata env metadata_kind then none
  else
    match env.rs2_get_frame_metadata metadata_kind with
    | .ok v => some v
    | .error _ => none

/-! ## Points frames (`src/frame/points.rs`) -/

/-- The `PointsFrame` wrapper from `src/frame/points.rs`. -/
structure PointsFrame where
  frame_ptr : Nat
  timestamp : FloatVal
  timestamp_domain : Rs2TimestampDomain
  frame_number : Nat
  frame_stream_profile : StreamProfile
  num_points : Nat
  vertices_data_ptr : Nat
  texture_data_ptr : Nat
  should_drop : Bool
  deriving DecidableEq, Repr

/-- The native behaviour of the raw `rs2_frame` handle a points frame is
constructed from. -/
structure PointsFrameBackend where
  rs2_get_frame_timestamp : Except Rs2Err FloatVal
  rs2_get_frame_timestamp_domain : Except Rs2Err Int
  rs2_get_frame_number : Except Rs2Err Nat
  rs2_get_frame_stream_profile : Except Rs2Err Nat
  profile_construct : Nat → Except StreamProfileConstructionError StreamProfile
  rs2_get_frame_points_count : Except Rs2Err Int
  rs2_get_frame_vertices : Except Rs2Err Nat
  rs2_get_frame_texture_coordinates : Except Rs2Err Nat

/-- `impl TryFrom<NonNull<rs2_frame>> for PointsFrame`, translated query by
query from `src/frame/points.rs`: timestamp, timestamp domain, frame number,
stream profile (recursively constructed), point count, vertex pointer,
texture pointer (both pointer failures tagged `CouldNotGetData`), then the
`Rs2TimestampDomain::from_i32(..).unwrap()` in the struct literal. -/
def PointsFrame.try_from (frame_ptr : Nat) (b : PointsFrameBackend) :
    RunResult (Except TryFromError PointsFrame) × List FrameQuery :=
  match b.rs2_get_frame_timestamp with
  | .error e => (.value (.error (.frame (.couldNotGetTimestamp e.exception e.message))),
      [.timestamp])
  | .ok timestamp =>
  match b.rs2_get_frame_timestamp_domain with
  | .error e => (.value (.error (.frame (.couldNotGetTimestampDomain e.exception e.message))),
      [.timestamp, .timestampDomain])
  | .ok timestamp_domain =>
  match b.rs2_get_frame_number with
  | .error e => (.value (.error (.frame (.couldNotGetFrameNumber e.exception e.message))),
      [.timestamp, .timestampDomain, .frameNumber])
  | .ok frame_number =>
  match b.rs2_get_frame_stream_profile with
  | .error e => (.value (.error (.frame (.couldNotGetFrameStreamProfile e.exception e.message))),
      [.timestamp, .timestampDomain, .frameNumber, .streamProfile])
  | .ok profile_ptr =>
  match b.profile_construct profile_ptr with
  | .error pe => (.value (.error (.profile pe)),
      [.timestamp, .timestampDomain, .frameNumber, .streamProfile])
  | .ok profile =>
  match b.rs2_get_frame_points_count with
  | .error e => (.value (.error (.frame (.couldNotGetPointCount e.exception e.message))),
      [.timestamp, .timestampDomain, .frameNumber, .streamProfile, .pointsCount])
  | .ok num_points =>
  match b.rs2_get_frame_vertices with
  | .error e => (.value (.error (.frame (.couldNotGetData e.exception e.message))),
      [.timestamp, .timestampDomain, .frameNumber, .streamProfile, .pointsCount,
       .vertices])
  | .ok vertices_ptr =>
  match b.rs2_get_frame_texture_coordinates with
  | .error e => (.value (.error (.frame (.couldNotGetData e.exception e.message))),
      [.timestamp, .timestampDomain, .frameNumber, .streamProfile, .pointsCount,
       .vertices, .textureCoordinates])
  | .ok texture_ptr =>
  match Rs2TimestampDomain.from_i32 timestamp_domain with
  | none => (.panicked "Rs2TimestampDomain::from_i32 returned None",
      [.timestamp, .timestampDomain, .frameNumber, .streamProfile, .pointsCount,
       .vertices, .textureCoordinates])
  | some domain =>
    (.value (.ok
      { frame_ptr := frame_ptr
        timestamp := timestamp
        timestamp_domain := domain
        frame_number := frame_number
        frame_stream_profile := profile
        num_points := usizeOfI32 num_points
        vertices_data_ptr := vertices_ptr
        texture_data_ptr := texture_ptr
        should_drop := true }),
      [.timestamp, .timestampDomain, .frameNumber, .streamProfile, .pointsCount,
       .vertices, .textureCoordinates])

/-- The native calls emitted by `impl Drop for PointsFrame`: release the
frame iff `should_drop` is set. -/
def PointsFrame.dropCalls (f : PointsFrame) : List NativeCall :=
  if f.should_drop then [.releaseFrame f.frame_ptr] else []

/-- `FrameEx::get_owned_raw` for points frames: consume the wrapper, clear
`should_drop`, and hand out the bare frame handle. -/
def PointsFrame.get_owned_raw (f : PointsFrame) : Nat × PointsFrame :=
  (f.frame_ptr, { f with should_drop := false })

/-! ## Observing the effect traces -/

/-- Interpretation of a call trace on a sensor's native option store: only
`rs2_set_option` mutates it. -/
def applyCalls (store : Rs2Option → FloatVal) : List NativeCall → (Rs2Option → FloatVal)
  | [] => store
  | .setOption o v :: rest => applyCalls (fun o' => if o' = o then v else store o') rest
  | .deleteSensor _ :: rest => applyCalls store rest
  | .releaseFrame _ :: rest => applyCalls store rest
  | .deleteSensorList _ :: rest => applyCalls store rest
  | .deleteStreamProfilesList _ :: rest => applyCalls store rest

/-- The native calls emitted by dropping each wrapper of a list of sensors
once, in order. -/
def dropAllSensors (ws : List Sensor) : List NativeCall :=
  (ws.map Sensor.dropCalls).flatten

/-! ## Concrete native behaviours used to exercise the theorems -/

/-- A native error standing for a disconnected device. -/
def errDisconnected : Rs2Err :=
  { exception := .cameraDisconnected, message := "Object monitor is shut down" }

/-- A device whose native backing store fails every call. -/
def deviceEnvDown : DeviceEnv where
  rs2_query_sensors := .error errDisconnected
  rs2_get_sensors_count := .error errDisconnected
  rs2_create_sensor := fun _ => .error errDisconnected
  rs2_supports_device_info := fun _ => .error errDisconnected
  rs2_get_device_info := fun _ => .error errDisconnected

/-- A sensor whose native backing store fails every call. -/
def sensorEnvDown : SensorEnv where
  rs2_supports_option := fun _ => .error errDisconnected
  rs2_is_option_read_only := fun _ => .error errDisconnected
  rs2_get_option := fun _ => .error errDisconnected
  rs2_set_option := fun _ _ => .error errDisconnected
  rs2_is_sensor_extendable_to := fun _ => .error errDisconnected
  rs2_supports_sensor_info := fun _ => .error errDisconnected
  rs2_get_sensor_info := fun _ => .error errDisconnected
  rs2_get_stream_profiles := .error errDisconnected
  rs2_get_stream_profiles_count := .error errDisconnected
  profile_try_create := fun _ =>
    .error (.couldNotRetrieveStreamData .cameraDisconnected "down")

/-- A frame handle whose metadata queries all fail. -/
def frameMetaEnvDown : FrameMetadataEnv where
  rs2_supports_frame_metadata := fun _ => .error errDisconnected
  rs2_get_frame_metadata := fun _ => .error errDisconnected

/-- A healthy device with two sensors, of which only index 0 constructs. -/
def deviceEnvTwo : DeviceEnv where
  rs2_query_sensors := .ok 10
  rs2_get_sensors_count := .ok 2
  rs2_create_sensor := fun i => if i = 0 then .ok 100 else .error errDisconnected
  rs2_supports_device_info := fun _ => .ok 1
  rs2_get_device_info := fun _ => .ok "923322071145"

/-- A healthy sensor: one stream profile, option supported and writable. -/
def sensorEnvLive : SensorEnv where
  rs2_supports_option := fun _ => .ok 1
  rs2_is_option_read_only := fun _ => .ok 0
  rs2_get_option := fun _ => .ok 40
  rs2_set_option := fun _ _ => .ok ()
  rs2_is_sensor_extendable_to := fun e => if e = .depthSensor then .ok 1 else .ok 0
  rs2_supports_sensor_info := fun _ => .ok 1
  rs2_get_sensor_info := fun _ => .ok "Stereo Module"
  rs2_get_stream_profiles := .ok 20
  rs2_get_stream_profiles_count := .ok 1
  profile_try_create := fun _ => .ok { ptr := 5, format := .z16 }

/-- A frame handle whose every image-frame query succeeds: 640x480 at 16
bits per pixel, stride 1280, data size 614400. -/
def imageBackendOk : ImageFrameBackend where
  rs2_get_frame_width := .ok 640
  rs2_get_frame_height := .ok 480
  rs2_get_frame_bits_per_pixel := .ok 16
  rs2_get_frame_stride_in_bytes := .ok 1280
  rs2_get_frame_timestamp := .ok 0
  rs2_get_frame_timestamp_domain := .ok 0
  rs2_get_frame_number := .ok 7
  rs2_get_frame_stream_profile := .ok 3
  profile_construct := fun p => .ok { ptr := p, format := .z16 }
  rs2_get_frame_data_size := .ok 614400
  rs2_get_frame_data := .ok 5

/-- The image frame `ImageFrame::try_from` builds from `imageBackendOk`. -/
def frame640 : ImageFrame where
  frame_ptr := 1
  width := 640
  height := 480
  stride := 1280
  bits_per_pixel := 16
  timestamp := 0
  timestamp_domain := .hardwareClock
  frame_number := 7
  frame_stream_profile := { ptr := 3, format := .z16 }
  data_size_in_bytes := 614400
  data := 5
  should_drop := true

/-- A tiny 2x2 image frame for exercising the pixel iterator. -/
def frame2x2 : ImageFrame where
  frame_ptr := 2
  width := 2
  height := 2
  stride := 4
  bits_per_pixel := 16
  timestamp := 0
  timestamp_domain := .systemTime
  frame_number := 8
  frame_stream_profile := { ptr := 4, format := .z16 }
  data_size_in_bytes := 8
  data := 6
  should_drop := true

/-- A frame handle whose every points-frame query succeeds. -/
def pointsBackendOk : PointsFrameBackend where
  rs2_get_frame_timestamp := .ok 0
  rs2_get_frame_timestamp_domain := .ok 1
  rs2_get_frame_number := .ok 9
  rs2_get_frame_stream_profile := .ok 11
  profile_construct := fun p => .ok { ptr := p, format := .distance }
  rs2_get_frame_points_count := .ok 100
  rs2_get_frame_vertices := .ok 12
  rs2_get_frame_texture_coordinates := .ok 13

/-- The points frame `PointsFrame::try_from` builds from `pointsBackendOk`. -/
def points100 : PointsFrame where
  frame_ptr := 4
  timestamp := 0
  timestamp_domain := .systemTime
  frame_number := 9
  frame_stream_profile := { ptr := 11, format := .distance }
  num_points := 100
  vertices_data_ptr := 12
  texture_data_ptr := 13
  should_drop := true


/-- `imageBackendOk`, except that the width query reports a native error. -/
def imageBackendNoWidth : ImageFrameBackend :=
  { imageBackendOk with rs2_get_frame_width := .error errDisconnected }

/-- The image-frame query order asserted by the specification sentence
"width, height, bits-per-pixel, stride, then (for image frames) the stream
profile before the timestamp, timestamp-domain, and frame-number queries,
then data size, then the raw data pointer".  This follows the spec's words,
for comparison against the order the code performs. -/
def claimedImageQueryOrder : List FrameQuery :=
  [.width, .height, .bitsPerPixel, .stride, .streamProfile, .timestamp,
   .timestampDomain, .frameNumber, .dataSize, .data]

/-! ## Theorems -/

/-- C7: for every camera-info, option, or frame-metadata key on which the
corresponding supports predicate returns false — including when the native
support query itself errors — the corresponding getter returns `none`, and
the supports predicates return false on any native error. -/
theorem advisory_query_symmetry (envD : DeviceEnv) (k : Rs2CameraInfo)
    (envS : SensorEnv) (o : Rs2Option) (envF : FrameMetadataEnv) (m : Rs2FrameMetadata) :
    (Device.supports_info envD k = false → Device.info envD k = none)
    ∧ (∀ e, envD.rs2_supports_device_info k = .error e → Device.supports_info envD k = false)
    ∧ (Sensor.supports_option envS o = false → Sensor.get_option envS o = none)
    ∧ (∀ e, envS.rs2_supports_option o = .error e → Sensor.supports_option envS o = false)
    ∧ (ImageFrame.supports_metadata envF m = false → ImageFrame.metadata envF m = none)
    ∧ (∀ e, envF.rs2_supports_frame_metadata m = .error e →
        ImageFrame.supports_metadata envF m = false) := by
  refine ⟨?_, ?_, ?_, ?_, ?_, ?_⟩
  · intro h; simp [Device.info, h]
  · intro e h; simp [Device.supports_info, h]
  · intro h; simp [Sensor.get_option, h]
  · intro e h; simp [Sensor.supports_option, h]
  · intro h; simp [ImageFrame.metadata, h]
  · intro e h; simp [ImageFrame.supports_metadata, h]

/-- C7 witness: on a disconnected backing store every supports predicate is
false and every getter is absent. -/
theorem advisory_query_symmetry_witness :
    Device.supports_info deviceEnvDown .serialNumber = false
    ∧ Device.info deviceEnvDown .serialNumber = none
    ∧ Sensor.get_option sensorEnvDown .depthUnits = none
    ∧ ImageFrame.metadata frameMetaEnvDown .frameCounter = none := by
  have h := advisory_query_symmetry deviceEnvDown .serialNumber
    sensorEnvDown .depthUnits frameMetaEnvDown .frameCounter
  exact ⟨h.2.1 errDisconnected rfl, h.1 (h.2.1 errDisconnected rfl),
    h.2.2.1 rfl, h.2.2.2.2.1 rfl⟩

/-- C6: `Sensor::set_option` fails with `OptionNotSupported` on an
unsupported option and `OptionIsReadOnly` on a supported read-only option,
in both cases without issuing the native set call (so any option store is
left unchanged by the issued calls); otherwise it issues the native set,
mapping a native error to `CouldNotSetOption` and succeeding otherwise. -/
theorem set_option_error_paths (env : SensorEnv) (o : Rs2Option) (v : FloatVal) :
    (Sensor.supports_option env o = false →
      Sensor.set_option env o v = (.error .optionNotSupported, [])
      ∧ ∀ store, applyCalls store (Sensor.set_option env o v).2 = store)
    ∧ (Sensor.supports_option env o = true → Sensor.is_option_read_only env o = true →
      Sensor.set_option env o v = (.error .optionIsReadOnly, [])
      ∧ ∀ store, applyCalls store (Sensor.set_option env o v).2 = store)
    ∧ (∀ e, Sensor.supports_option env o = true → Sensor.is_option_read_only env o = false →
      env.rs2_set_option o v = .error e →
      Sensor.set_option env o v =
        (.error (.couldNotSetOption e.exception e.message), [.setOption o v]))
    ∧ (Sensor.supports_option env o = true → Sensor.is_option_read_only env o = false →
      env.rs2_set_option o v = .ok () →
      Sensor.set_option env o v = (.ok (), [.setOption o v])) := by
  refine ⟨?_, ?_, ?_, ?_⟩
  · intro h
    have hs : Sensor.set_option env o v = (.error .optionNotSupported, []) := by
      simp [Sensor.set_option, h]
    exact ⟨hs, fun store => by rw [hs]; rfl⟩
  · intro h hro
    have hs : Sensor.set_option env o v = (.error .optionIsReadOnly, []) := by
      simp [Sensor.set_option, h, hro]
    exact ⟨hs, fun store => by rw [hs]; rfl⟩
  · intro e h hro hset
    simp [Sensor.set_option, h, hro, check_rs2_error, hset]
  · intro h hro hset
    simp [Sensor.set_option, h, hro, check_rs2_error, hset]

/-- C6 witness: on a sensor that fails the support query, `set_option`
reports `OptionNotSupported` and issues no native call; on a live sensor the
set succeeds with exactly one native set call. -/
theorem set_option_error_paths_witness :
    Sensor.set_option sensorEnvDown .exposure 5 = (.error .optionNotSupported, [])
    ∧ Sensor.set_option sensorEnvLive .exposure 5 = (.ok (), [.setOption .exposure 5]) := by
  refine ⟨((set_option_error_paths sensorEnvDown .exposure 5).1 rfl).1, ?_⟩
  exact (set_option_error_paths sensorEnvLive .exposure 5).2.2.2 rfl rfl rfl

/-- C9: `ImageFrame::get` returns `none` exactly when the column or row is
out of bounds, and otherwise returns `some` of exactly the pixel that
`get_unchecked` decodes at that position. -/
theorem image_get_bounds_check (f : ImageFrame) (col row : Nat) :
    (ImageFrame.get f col row = none ↔ f.width ≤ col ∨ f.height ≤ row)
    ∧ (col < f.width → row < f.height →
      ImageFrame.get f col row = some (ImageFrame.get_unchecked f col row)) := by
  constructor
  · by_cases h : f.width ≤ col ∨ f.height ≤ row <;> simp [ImageFrame.get, h]
  · intro hc hr
    simp [ImageFrame.get, Nat.not_le.2 hc, Nat.not_le.2 hr]

/-- C9 witness: on a 640-wide frame, `get(700, 10)` is absent while
`get(10, 10)` returns the `get_unchecked` decode. -/
theorem image_get_bounds_check_witness :
    ImageFrame.get frame640 700 10 = none
    ∧ ImageFrame.get frame640 10 10 = some (ImageFrame.get_unchecked frame640 10 10) :=
  ⟨(image_get_bounds_check frame640 700 10).1.mpr (by decide),
   (image_get_bounds_check frame640 10 10).2 (by decide) (by decide)⟩

/-- C4: `Device::sensors` and `Sensor::stream_profiles` return an empty
vector (not an error) when the list query or the count query reports a
native error, silently skip every element whose individual construction
fails, and release the native list handle exactly once on every exit path
on which it was obtained. -/
theorem enumeration_empty_on_error (envD : DeviceEnv) (envS : SensorEnv) :
    (∀ e, envD.rs2_query_sensors = .error e → Device.sensors envD = ([], []))
    ∧ (∀ h e, envD.rs2_query_sensors = .ok h → envD.rs2_get_sensors_count = .error e →
        Device.sensors envD = ([], [.deleteSensorList h]))
    ∧ (∀ h len, envD.rs2_query_sensors = .ok h → envD.rs2_get_sensors_count = .ok len →
        Device.sensors envD =
          ((List.range len.toNat).filterMap
            (fun i => (Sensor.try_create envD.rs2_create_sensor (Int.ofNat i)).toOption),
          [.deleteSensorList h]))
    ∧ (∀ h, envD.rs2_query_sensors = .ok h →
        (Device.sensors envD).2.count (.deleteSensorList h) = 1)
    ∧ (∀ e, envS.rs2_get_stream_profiles = .error e → Sensor.stream_profiles envS = ([], []))
    ∧ (∀ h e, envS.rs2_get_stream_profiles = .ok h →
        envS.rs2_get_stream_profiles_count = .error e →
        Sensor.stream_profiles envS = ([], [.deleteStreamProfilesList h]))
    ∧ (∀ h len, envS.rs2_get_stream_profiles = .ok h →
        envS.rs2_get_stream_profiles_count = .ok len →
        Sensor.stream_profiles envS =
          ((List.range len.toNat).filterMap
            (fun i => (envS.profile_try_create (Int.ofNat i)).toOption),
          [.deleteStreamProfilesList h]))
    ∧ (∀ h, envS.rs2_get_stream_profiles = .ok h →
        (Sensor.stream_profiles envS).2.count (.deleteStreamProfilesList h) = 1) := by
  refine ⟨?_, ?_, ?_, ?_, ?_, ?_, ?_, ?_⟩
  · intro e h; simp [Device.sensors, h]
  · intro hdl e hq hc; simp [Device.sensors, hq, hc]
  · intro hdl len hq hc; simp [Device.sensors, hq, hc]
  · intro hdl hq
    rcases hc : envD.rs2_get_sensors_count with e | len <;>
      simp [Device.sensors, hq, hc]
  · intro e h; simp [Sensor.stream_profiles, h]
  · intro hdl e hq hc; simp [Sensor.stream_profiles, hq, hc]
  · intro hdl len hq hc; simp [Sensor.stream_profiles, hq, hc]
  · intro hdl hq
    rcases hc : envS.rs2_get_stream_profiles_count with e | len <;>
      simp [Sensor.stream_profiles, hq, hc]

/-- C4 witness: a disconnected device enumerates no sensors without error;
a healthy device with two advertised sensors of which only index 0
constructs yields exactly that one sensor, and the list is deleted once. -/
theorem enumeration_empty_on_error_witness :
    Device.sensors deviceEnvDown = ([], [])
    ∧ Sensor.stream_profiles sensorEnvDown = ([], [])
    ∧ Device.sensors deviceEnvTwo =
        ([{ sensor_ptr := 100, should_drop := true }], [.deleteSensorList 10])
    ∧ (Device.sensors deviceEnvTwo).2.count (.deleteSensorList 10) = 1 := by
  have h := enumeration_empty_on_error deviceEnvTwo sensorEnvDown
  refine ⟨(enumeration_empty_on_error deviceEnvDown sensorEnvDown).1 errDisconnected rfl,
    (enumeration_empty_on_error deviceEnvDown sensorEnvDown).2.2.2.2.1 errDisconnected rfl,
    ?_, h.2.2.2.1 10 rfl⟩
  rw [h.2.2.1 10 2 rfl rfl]
  rfl

/-- Dropping each sensor wrapper of a list once emits exactly one
`rs2_delete_sensor` per owned wrapper: the deletes for a handle count the
owned wrappers holding that handle. -/
theorem dropAllSensors_count_eq (ws : List Sensor) (hdl : Nat) :
    (dropAllSensors ws).count (.deleteSensor hdl) =
      ((ws.filter (fun s => s.should_drop)).map Sensor.sensor_ptr).count hdl := by
  induction ws with
  | nil => rfl
  | cons s ws ih =>
    by_cases h : s.should_drop <;>
      simp [dropAllSensors, Sensor.dropCalls, h, List.count_cons] at ih ⊢ <;>
      omega

/-- C1: a `Sensor` built with `From` is borrowed (`should_drop = false`) and
its drop emits no native delete; a `Sensor` built with `try_create` is owned
(`should_drop = true`) and its drop emits exactly one delete of its handle;
and over any sequence of drops of wrappers whose owned handles are distinct,
each native handle is deleted at most once. -/
theorem sensor_handle_released_at_most_once (ws : List Sensor)
    (hnd : ((ws.filter (fun s => s.should_drop)).map Sensor.sensor_ptr).Nodup)
    (hdl p : Nat) (cs : Int → Except Rs2Err Nat) (i : Int) (s : Sensor)
    (hs : Sensor.try_create cs i = .ok s) :
    (dropAllSensors ws).count (.deleteSensor hdl) ≤ 1
    ∧ (Sensor.fromPtr p).should_drop = false
    ∧ (Sensor.fromPtr p).dropCalls = []
    ∧ s.should_drop = true
    ∧ s.dropCalls = [.deleteSensor s.sensor_ptr] := by
  have hfields : s.should_drop = true := by
    rcases hcs : cs i with e | q <;>
      simp [Sensor.try_create, check_rs2_error, hcs] at hs
    rw [← hs]
  refine ⟨?_, rfl, rfl, hfields, ?_⟩
  · rw [dropAllSensors_count_eq]
    exact List.nodup_iff_count_le_one.mp hnd hdl
  · simp [Sensor.dropCalls, hfields]

/-- C1 witness: dropping one owned and one borrowed wrapper deletes handle 1
once; `From` yields a borrowed wrapper; `try_create` on a live list yields
an owned wrapper whose drop deletes its own handle once. -/
theorem sensor_handle_released_at_most_once_witness :
    (dropAllSensors [{ sensor_ptr := 1, should_drop := true },
        { sensor_ptr := 2, should_drop := false }]).count (.deleteSensor 1) ≤ 1
    ∧ (Sensor.fromPtr 2).should_drop = false
    ∧ (Sensor.fromPtr 2).dropCalls = []
    ∧ (Sensor.mk 9 true).should_drop = true
    ∧ (Sensor.mk 9 true).dropCalls = [.deleteSensor 9] :=
  sensor_handle_released_at_most_once
    [{ sensor_ptr := 1, should_drop := true }, { sensor_ptr := 2, should_drop := false }]
    (by decide) 1 2 (fun _ => .ok 9) 0 (Sensor.mk 9 true) rfl

/-- Inversion of a successful `ImageFrame::try_from`: every native query
succeeded, the debug assertion held, the timestamp domain decoded, the
queries were issued in `imageQueryOrder`, and every field of the frame is
the queried value. -/
theorem image_try_from_ok_inv (fptr : Nat) (b : ImageFrameBackend)
    (f : ImageFrame) (tr : List FrameQuery)
    (h : ImageFrame.try_from fptr b = (.value (.ok f), tr)) :
    ∃ w ht bpp st ts tsd fn pp prof sz dp dom,
      b.rs2_get_frame_width = .ok w
      ∧ b.rs2_get_frame_height = .ok ht
      ∧ b.rs2_get_frame_bits_per_pixel = .ok bpp
      ∧ b.rs2_get_frame_stride_in_bytes = .ok st
      ∧ b.rs2_get_frame_timestamp = .ok ts
      ∧ b.rs2_get_frame_timestamp_domain = .ok tsd
      ∧ b.rs2_get_frame_number = .ok fn
      ∧ b.rs2_get_frame_stream_profile = .ok pp
      ∧ b.profile_construct pp = .ok prof
      ∧ b.rs2_get_frame_data_size = .ok sz
      ∧ sz = (w * ht * bpp).tdiv 8
      ∧ b.rs2_get_frame_data = .ok dp
      ∧ Rs2TimestampDomain.from_i32 tsd = some dom
      ∧ f = { frame_ptr := fptr, width := usizeOfI32 w, height := usizeOfI32 ht,
              stride := usizeOfI32 st, bits_per_pixel := usizeOfI32 bpp,
              timestamp := ts, timestamp_domain := dom, frame_number := fn,
              frame_stream_profile := prof, data_size_in_bytes := usizeOfI32 sz,
              data := dp, should_drop := true }
      ∧ tr = imageQueryOrder := by
  rcases hw : b.rs2_get_frame_width with e | w
  · simp [ImageFrame.try_from, hw] at h
  rcases hh : b.rs2_get_frame_height with e | ht
  · simp [ImageFrame.try_from, hw, hh] at h
  rcases hbp : b.rs2_get_frame_bits_per_pixel with e | bpp
  · simp [ImageFrame.try_from, hw, hh, hbp] at h
  rcases hst : b.rs2_get_frame_stride_in_bytes with e | st
  · simp [ImageFrame.try_from, hw, hh, hbp, hst] at h
  rcases hts : b.rs2_get_frame_timestamp with e | ts
  · simp [ImageFrame.try_from, hw, hh, hbp, hst, hts] at h
  rcases htsd : b.rs2_get_frame_timestamp_domain with e | tsd
  · simp [ImageFrame.try_from, hw, hh, hbp, hst, hts, htsd] at h
  rcases hfn : b.rs2_get_frame_number with e | fn
  · simp [ImageFrame.try_from, hw, hh, hbp, hst, hts, htsd, hfn] at h
  rcases hpp : b.rs2_get_frame_stream_profile with e | pp
  · simp [ImageFrame.try_from, hw, hh, hbp, hst, hts, htsd, hfn, hpp] at h
  rcases hprof : b.profile_construct pp with pe | prof
  · simp [ImageFrame.try_from, hw, hh, hbp, hst, hts, htsd, hfn, hpp, hprof] at h
  rcases hsz : b.rs2_get_frame_data_size with e | sz
  · simp [ImageFrame.try_from, hw, hh, hbp, hst, hts, htsd, hfn, hpp, hprof, hsz] at h
  by_cases hne : sz = (w * ht * bpp).tdiv 8
  case neg =>
    simp [ImageFrame.try_from, hw, hh, hbp, hst, hts, htsd, hfn, hpp, hprof, hsz, hne] at h
  subst hne
  rcases hdp : b.rs2_get_frame_data with e | dp
  · simp [ImageFrame.try_from, hw, hh, hbp, hst, hts, htsd, hfn, hpp, hprof, hsz,
      hdp] at h
  rcases hdom : Rs2TimestampDomain.from_i32 tsd with _ | dom
  · simp [ImageFrame.try_from, hw, hh, hbp, hst, hts, htsd, hfn, hpp, hprof, hsz,
      hdp, hdom] at h
  simp [ImageFrame.try_from, hw, hh, hbp, hst, hts, htsd, hfn, hpp, hprof, hsz,
    hdp, hdom] at h
  exact ⟨w, ht, bpp, st, ts, tsd, fn, pp, prof, (w * ht * bpp).tdiv 8, dp, dom,
    rfl, rfl, rfl, rfl, rfl, rfl, rfl, rfl, hprof, rfl, rfl, rfl, hdom,
    h.1.symm, h.2.symm⟩

/-- Inversion of a successful `PointsFrame::try_from`: every native query
succeeded, the timestamp domain decoded, and every field of the frame is the
queried value. -/
theorem points_try_from_ok_inv (fptr : Nat) (b : PointsFrameBackend)
    (f : PointsFrame) (tr : List FrameQuery)
    (h : PointsFrame.try_from fptr b = (.value (.ok f), tr)) :
    ∃ ts tsd fn pp prof np vp tp dom,
      b.rs2_get_frame_timestamp = .ok ts
      ∧ b.rs2_get_frame_timestamp_domain = .ok tsd
      ∧ b.rs2_get_frame_number = .ok fn
      ∧ b.rs2_get_frame_stream_profile = .ok pp
      ∧ b.profile_construct pp = .ok prof
      ∧ b.rs2_get_frame_points_count = .ok np
      ∧ b.rs2_get_frame_vertices = .ok vp
      ∧ b.rs2_get_frame_texture_coordinates = .ok tp
      ∧ Rs2TimestampDomain.from_i32 tsd = some dom
      ∧ f = { frame_ptr := fptr, timestamp := ts, timestamp_domain := dom,
              frame_number := fn, frame_stream_profile := prof,
              num_points := usizeOfI32 np, vertices_data_ptr := vp,
              texture_data_ptr := tp, should_drop := true }
      ∧ tr = [.timestamp, .timestampDomain, .frameNumber, .streamProfile,
              .pointsCount, .vertices, .textureCoordinates] := by
  rcases hts : b.rs2_get_frame_timestamp with e | ts
  · simp [PointsFrame.try_from, hts] at h
  rcases htsd : b.rs2_get_frame_timestamp_domain with e | tsd
  · simp [PointsFrame.try_from, hts, htsd] at h
  rcases hfn : b.rs2_get_frame_number with e | fn
  · simp [PointsFrame.try_from, hts, htsd, hfn] at h
  rcases hpp : b.rs2_get_frame_stream_profile with e | pp
  · simp [PointsFrame.try_from, hts, htsd, hfn, hpp] at h
  rcases hprof : b.profile_construct pp with pe | prof
  · simp [PointsFrame.try_from, hts, htsd, hfn, hpp, hprof] at h
  rcases hnp : b.rs2_get_frame_points_count with e | np
  · simp [PointsFrame.try_from, hts, htsd, hfn, hpp, hprof, hnp] at h
  rcases hvp : b.rs2_get_frame_vertices with e | vp
  · simp [PointsFrame.try_from, hts, htsd, hfn, hpp, hprof, hnp, hvp] at h
  rcases htp : b.rs2_get_frame_texture_coordinates with e | tp
  · simp [PointsFrame.try_from, hts, htsd, hfn, hpp, hprof, hnp, hvp, htp] at h
  rcases hdom : Rs2TimestampDomain.from_i32 tsd with _ | dom
  · simp [PointsFrame.try_from, hts, htsd, hfn, hpp, hprof, hnp, hvp, htp, hdom] at h
  simp [PointsFrame.try_from, hts, htsd, hfn, hpp, hprof, hnp, hvp, htp, hdom] at h
  exact ⟨ts, tsd, fn, pp, prof, np, vp, tp, dom, rfl, rfl, rfl, rfl, hprof, rfl,
    rfl, rfl, hdom, h.1.symm, h.2.symm⟩

/-- C3: `get_owned_raw` on any image or points frame returns the bare native
handle and leaves a wrapper with the should-release flag cleared, whose drop
emits no release call; a frame returned by `try_from` has the flag set and
its drop emits exactly one release of its handle. -/
theorem frame_ownership_transfer (fi : ImageFrame) (fp : PointsFrame)
    (iptr pptr : Nat) (bi : ImageFrameBackend) (bp : PointsFrameBackend) :
    ((ImageFrame.get_owned_raw fi).1 = fi.frame_ptr
      ∧ (ImageFrame.get_owned_raw fi).2.should_drop = false
      ∧ (ImageFrame.get_owned_raw fi).2.dropCalls = [])
    ∧ ((PointsFrame.get_owned_raw fp).1 = fp.frame_ptr
      ∧ (PointsFrame.get_owned_raw fp).2.should_drop = false
      ∧ (PointsFrame.get_owned_raw fp).2.dropCalls = [])
    ∧ (∀ f tr, ImageFrame.try_from iptr bi = (.value (.ok f), tr) →
        f.should_drop = true ∧ f.dropCalls = [.releaseFrame f.frame_ptr])
    ∧ (∀ f tr, PointsFrame.try_from pptr bp = (.value (.ok f), tr) →
        f.should_drop = true ∧ f.dropCalls = [.releaseFrame f.frame_ptr]) := by
  refine ⟨⟨rfl, rfl, rfl⟩, ⟨rfl, rfl, rfl⟩, ?_, ?_⟩
  · intro f tr h
    obtain ⟨w, ht, bpp, st, ts, tsd, fn, pp, prof, sz, dp, dom,
      _, _, _, _, _, _, _, _, _, _, _, _, _, hf, _⟩ :=
      image_try_from_ok_inv iptr bi f tr h
    subst hf
    exact ⟨rfl, rfl⟩
  · intro f tr h
    obtain ⟨ts, tsd, fn, pp, prof, np, vp, tp, dom, _, _, _, _, _, _, _, _, _, hf, _⟩ :=
      points_try_from_ok_inv pptr bp f tr h
    subst hf
    exact ⟨rfl, rfl⟩

/-- C3 witness: concrete frames constructed from healthy handles carry the
flag, and transferring ownership out silences their drop. -/
theorem frame_ownership_transfer_witness :
    frame640.should_drop = true
    ∧ frame640.dropCalls = [.releaseFrame 1]
    ∧ (ImageFrame.get_owned_raw frame640).1 = 1
    ∧ (ImageFrame.get_owned_raw frame640).2.dropCalls = []
    ∧ points100.should_drop = true
    ∧ points100.dropCalls = [.releaseFrame 4]
    ∧ (PointsFrame.get_owned_raw points100).2.dropCalls = [] := by
  have h := frame_ownership_transfer frame640 points100 1 4 imageBackendOk pointsBackendOk
  have hi := h.2.2.1 frame640 imageQueryOrder rfl
  have hp := h.2.2.2 points100
    [.timestamp, .timestampDomain, .frameNumber, .streamProfile,
     .pointsCount, .vertices, .textureCoordinates] rfl
  exact ⟨hi.1, hi.2, h.1.1, h.1.2.2, hp.1, hp.2, h.2.1.2.2⟩

/-- `as usize` on a nonnegative `c_int` is the underlying natural number. -/
theorem usizeOfI32_ofNat (a : Nat) : usizeOfI32 (a : Int) = a := by
  simp [usizeOfI32]

/-- The truncating `c_int` division of nonnegative values, then `as usize`,
is natural division. -/
theorem usizeOfI32_natCast_tdiv (a b : Nat) :
    usizeOfI32 ((a : Int).tdiv (b : Int)) = a / b := by
  have h : (a : Int).tdiv (b : Int) = ((a / b : Nat) : Int) := rfl
  rw [h, usizeOfI32_ofNat]

/-- C5: a successfully constructed image frame (with the native getters
returning nonnegative `c_int` values, as the SDK contract guarantees) has
its cached buffer size equal to `width * height * bits_per_pixel / 8`; and
in debug builds the construction asserts exactly this equation, aborting
with a panic when the native-reported size violates it. -/
theorem image_data_size_invariant (fptr : Nat) (b : ImageFrameBackend) :
    (∀ w ht bpp f tr,
      b.rs2_get_frame_width = .ok w →
      b.rs2_get_frame_height = .ok ht →
      b.rs2_get_frame_bits_per_pixel = .ok bpp →
      0 ≤ w → 0 ≤ ht → 0 ≤ bpp →
      ImageFrame.try_from fptr b = (.value (.ok f), tr) →
      f.data_size_in_bytes = f.width * f.height * f.bits_per_pixel / 8)
    ∧ (∀ w ht bpp st ts tsd fn pp prof sz,
      b.rs2_get_frame_width = .ok w →
      b.rs2_get_frame_height = .ok ht →
      b.rs2_get_frame_bits_per_pixel = .ok bpp →
      b.rs2_get_frame_stride_in_bytes = .ok st →
      b.rs2_get_frame_timestamp = .ok ts →
      b.rs2_get_frame_timestamp_domain = .ok tsd →
      b.rs2_get_frame_number = .ok fn →
      b.rs2_get_frame_stream_profile = .ok pp →
      b.profile_construct pp = .ok prof →
      b.rs2_get_frame_data_size = .ok sz →
      sz ≠ (w * ht * bpp).tdiv 8 →
      (ImageFrame.try_from fptr b).1 =
        .panicked "debug_assert_eq: size == width * height * bits_per_pixel / BITS_PER_BYTE") := by
  constructor
  · intro w ht bpp f tr hw hh hb h0w h0h h0b hok
    obtain ⟨w', ht', bpp', st, ts, tsd, fn, pp, prof, sz, dp, dom,
      hw', hh', hb', _, _, _, _, _, _, _, hsz, _, _, hf, _⟩ :=
      image_try_from_ok_inv fptr b f tr hok
    rw [hw] at hw'; rw [hh] at hh'; rw [hb] at hb'
    obtain rfl : w = w' := by injection hw'
    obtain rfl : ht = ht' := by injection hh'
    obtain rfl : bpp = bpp' := by injection hb'
    subst hsz hf
    obtain ⟨W, rfl⟩ : ∃ n : Nat, w = (n : Int) :=
      ⟨w.toNat, (Int.toNat_of_nonneg h0w).symm⟩
    obtain ⟨Ht, rfl⟩ : ∃ n : Nat, ht = (n : Int) :=
      ⟨ht.toNat, (Int.toNat_of_nonneg h0h).symm⟩
    obtain ⟨B, rfl⟩ : ∃ n : Nat, bpp = (n : Int) :=
      ⟨bpp.toNat, (Int.toNat_of_nonneg h0b).symm⟩
    show usizeOfI32 (((W : Int) * (Ht : Int) * (B : Int)).tdiv (((8 : Nat) : Int))) =
      usizeOfI32 (W : Int) * usizeOfI32 (Ht : Int) * usizeOfI32 (B : Int) / 8
    rw [← Nat.cast_mul, ← Nat.cast_mul, usizeOfI32_natCast_tdiv,
      usizeOfI32_ofNat, usizeOfI32_ofNat, usizeOfI32_ofNat]
  · intro w ht bpp st ts tsd fn pp prof sz hw hh hb hst hts htsd hfn hpp hprof hsz hne
    simp [ImageFrame.try_from, hw, hh, hb, hst, hts, htsd, hfn, hpp, hprof, hsz, hne]

/-- C5 witness: the 640x480, 16-bits-per-pixel frame has
`data_size_in_bytes = 640 * 480 * 16 / 8 = 614400`, and a handle reporting a
mismatched size panics the debug assertion. -/
theorem image_data_size_invariant_witness :
    frame640.data_size_in_bytes = frame640.width * frame640.height * frame640.bits_per_pixel / 8
    ∧ frame640.data_size_in_bytes = 614400 :=
  ⟨(image_data_size_invariant 1 imageBackendOk).1 640 480 16 frame640 imageQueryOrder
      rfl rfl rfl (by decide) (by decide) (by decide) rfl,
   rfl⟩

/-- C2 counterexample: on a handle where every query succeeds, the queries
actually performed by `ImageFrame::try_from` are `imageQueryOrder` — which
places the timestamp, timestamp-domain and frame-number queries *before* the
stream-profile query — not the claimed order, which places the stream
profile first. -/
theorem image_tryfrom_claimed_order_refuted :
    (ImageFrame.try_from 1 imageBackendOk).2 = imageQueryOrder
    ∧ imageQueryOrder ≠ claimedImageQueryOrder :=
  ⟨rfl, by decide⟩

/-- C2 (amended): `ImageFrame::try_from` performs its fallible queries in
the fixed order width → height → bits-per-pixel → stride → timestamp →
timestamp domain → frame number → stream profile (recursively constructed)
→ data size → data pointer; the trace of issued queries is always a prefix
of that order, the first failing query aborts the construction with the
error tagged with that field (a failed recursive profile construction
propagates its own error), and on success — the only case in which a frame
is returned — every query was issued and every field of the frame is
populated from its query's value. -/
theorem image_tryfrom_query_order (fptr : Nat) (b : ImageFrameBackend) :
    (∃ t, (ImageFrame.try_from fptr b).2 ++ t = imageQueryOrder)
    ∧ (∀ f tr, ImageFrame.try_from fptr b = (.value (.ok f), tr) →
        tr = imageQueryOrder)
    ∧ (∀ e, b.rs2_get_frame_width = .error e →
        ImageFrame.try_from fptr b =
          (.value (.error (.frame (.couldNotGetWidth e.exception e.message))), [.width]))
    ∧ (∀ w e, b.rs2_get_frame_width = .ok w → b.rs2_get_frame_height = .error e →
        ImageFrame.try_from fptr b =
          (.value (.error (.frame (.couldNotGetHeight e.exception e.message))),
            [.width, .height]))
    ∧ (∀ w ht e, b.rs2_get_frame_width = .ok w → b.rs2_get_frame_height = .ok ht →
        b.rs2_get_frame_bits_per_pixel = .error e →
        ImageFrame.try_from fptr b =
          (.value (.error (.frame (.couldNotGetBitsPerPixel e.exception e.message))),
            [.width, .height, .bitsPerPixel]))
    ∧ (∀ w ht bpp e, b.rs2_get_frame_width = .ok w → b.rs2_get_frame_height = .ok ht →
        b.rs2_get_frame_bits_per_pixel = .ok bpp →
        b.rs2_get_frame_stride_in_bytes = .error e →
        ImageFrame.try_from fptr b =
          (.value (.error (.frame (.couldNotGetStride e.exception e.message))),
            [.width, .height, .bitsPerPixel, .stride]))
    ∧ (∀ w ht bpp st e, b.rs2_get_frame_width = .ok w → b.rs2_get_frame_height = .ok ht →
        b.rs2_get_frame_bits_per_pixel = .ok bpp →
        b.rs2_get_frame_stride_in_bytes = .ok st →
        b.rs2_get_frame_timestamp = .error e →
        ImageFrame.try_from fptr b =
          (.value (.error (.frame (.couldNotGetTimestamp e.exception e.message))),
            [.width, .height, .bitsPerPixel, .stride, .timestamp]))
    ∧ (∀ w ht bpp st ts e, b.rs2_get_frame_width = .ok w → b.rs2_get_frame_height = .ok ht →
        b.rs2_get_frame_bits_per_pixel = .ok bpp →
        b.rs2_get_frame_stride_in_bytes = .ok st →
        b.rs2_get_frame_timestamp = .ok ts →
        b.rs2_get_frame_timestamp_domain = .error e →
        ImageFrame.try_from fptr b =
          (.value (.error (.frame (.couldNotGetTimestampDomain e.exception e.message))),
            [.width, .height, .bitsPerPixel, .stride, .timestamp, .timestampDomain]))
    ∧ (∀ w ht bpp st ts tsd e, b.rs2_get_frame_width = .ok w →
        b.rs2_get_frame_height = .ok ht →
        b.rs2_get_frame_bits_per_pixel = .ok bpp →
        b.rs2_get_frame_stride_in_bytes = .ok st →
        b.rs2_get_frame_timestamp = .ok ts →
        b.rs2_get_frame_timestamp_domain = .ok tsd →
        b.rs2_get_frame_number = .error e →
        ImageFrame.try_from fptr b =
          (.value (.error (.frame (.couldNotGetFrameNumber e.exception e.message))),
            [.width, .height, .bitsPerPixel, .stride, .timestamp, .timestampDomain,
             .frameNumber]))
    ∧ (∀ w ht bpp st ts tsd fn e, b.rs2_get_frame_width = .ok w →
        b.rs2_get_frame_height = .ok ht →
        b.rs2_get_frame_bits_per_pixel = .ok bpp →
        b.rs2_get_frame_stride_in_bytes = .ok st →
        b.rs2_get_frame_timestamp = .ok ts →
        b.rs2_get_frame_timestamp_domain = .ok tsd →
        b.rs2_get_frame_number = .ok fn →
        b.rs2_get_frame_stream_profile = .error e →
        ImageFrame.try_from fptr b =
          (.value (.error (.frame (.couldNotGetFrameStreamProfile e.exception e.message))),
            [.width, .height, .bitsPerPixel, .stride, .timestamp, .timestampDomain,
             .frameNumber, .streamProfile]))
    ∧ (∀ w ht bpp st ts tsd fn pp pe, b.rs2_get_frame_width = .ok w →
        b.rs2_get_frame_height = .ok ht →
        b.rs2_get_frame_bits_per_pixel = .ok bpp →
        b.rs2_get_frame_stride_in_bytes = .ok st →
        b.rs2_get_frame_timestamp = .ok ts →
        b.rs2_get_frame_timestamp_domain = .ok tsd →
        b.rs2_get_frame_number = .ok fn →
        b.rs2_get_frame_stream_profile = .ok pp →
        b.profile_construct pp = .error pe →
        ImageFrame.try_from fptr b =
          (.value (.error (.profile pe)),
            [.width, .height, .bitsPerPixel, .stride, .timestamp, .timestampDomain,
             .frameNumber, .streamProfile]))
    ∧ (∀ w ht bpp st ts tsd fn pp prof e, b.rs2_get_frame_width = .ok w →
        b.rs2_get_frame_height = .ok ht →
        b.rs2_get_frame_bits_per_pixel = .ok bpp →
        b.rs2_get_frame_stride_in_bytes = .ok st →
        b.rs2_get_frame_timestamp = .ok ts →
        b.rs2_get_frame_timestamp_domain = .ok tsd →
        b.rs2_get_frame_number = .ok fn →
        b.rs2_get_frame_stream_profile = .ok pp →
        b.profile_construct pp = .ok prof →
        b.rs2_get_frame_data_size = .error e →
        ImageFrame.try_from fptr b =
          (.value (.error (.frame (.couldNotGetDataSize e.exception e.message))),
            [.width, .height, .bitsPerPixel, .stride, .timestamp, .timestampDomain,
             .frameNumber, .streamProfile, .dataSize]))
    ∧ (∀ w ht bpp st ts tsd fn pp prof sz e, b.rs2_get_frame_width = .ok w →
        b.rs2_get_frame_height = .ok ht →
        b.rs2_get_frame_bits_per_pixel = .ok bpp →
        b.rs2_get_frame_stride_in_bytes = .ok st →
        b.rs2_get_frame_timestamp = .ok ts →
        b.rs2_get_frame_timestamp_domain = .ok tsd →
        b.rs2_get_frame_number = .ok fn →
        b.rs2_get_frame_stream_profile = .ok pp →
        b.profile_construct pp = .ok prof →
        b.rs2_get_frame_data_size = .ok sz →
        sz = (w * ht * bpp).tdiv 8 →
        b.rs2_get_frame_data = .error e →
        ImageFrame.try_from fptr b =
          (.value (.error (.frame (.couldNotGetData e.exception e.message))),
            imageQueryOrder))
    ∧ (∀ f tr, ImageFrame.try_from fptr b = (.value (.ok f), tr) →
        ∃ w ht bpp st ts tsd fn pp prof sz dp dom,
          b.rs2_get_frame_width = .ok w
          ∧ b.rs2_get_frame_height = .ok ht
          ∧ b.rs2_get_frame_bits_per_pixel = .ok bpp
          ∧ b.rs2_get_frame_stride_in_bytes = .ok st
          ∧ b.rs2_get_frame_timestamp = .ok ts
          ∧ b.rs2_get_frame_timestamp_domain = .ok tsd
          ∧ b.rs2_get_frame_number = .ok fn
          ∧ b.rs2_get_frame_stream_profile = .ok pp
          ∧ b.profile_construct pp = .ok prof
          ∧ b.rs2_get_frame_data_size = .ok sz
          ∧ b.rs2_get_frame_data = .ok dp
          ∧ Rs2TimestampDomain.from_i32 tsd = some dom
          ∧ f = { frame_ptr := fptr, width := usizeOfI32 w, height := usizeOfI32 ht,
                  stride := usizeOfI32 st, bits_per_pixel := usizeOfI32 bpp,
                  timestamp := ts, timestamp_domain := dom, frame_number := fn,
                  frame_stream_profile := prof, data_size_in_bytes := usizeOfI32 sz,
                  data := dp, should_drop := true }) := by
  refine ⟨?_, ?_, ?_, ?_, ?_, ?_, ?_, ?_, ?_, ?_, ?_, ?_, ?_, ?_⟩
  · rcases hw : b.rs2_get_frame_width with e | w
    · exact ⟨[.height, .bitsPerPixel, .stride, .timestamp, .timestampDomain,
        .frameNumber, .streamProfile, .dataSize, .data],
        by simp [ImageFrame.try_from, hw, imageQueryOrder]⟩
    rcases hh : b.rs2_get_frame_height with e | ht
    · exact ⟨[.bitsPerPixel, .stride, .timestamp, .timestampDomain,
        .frameNumber, .streamProfile, .dataSize, .data],
        by simp [ImageFrame.try_from, hw, hh, imageQueryOrder]⟩
    rcases hbp : b.rs2_get_frame_bits_per_pixel with e | bpp
    · exact ⟨[.stride, .timestamp, .timestampDomain, .frameNumber, .streamProfile,
        .dataSize, .data],
        by simp [ImageFrame.try_from, hw, hh, hbp, imageQueryOrder]⟩
    rcases hst : b.rs2_get_frame_stride_in_bytes with e | st
    · exact ⟨[.timestamp, .timestampDomain, .frameNumber, .streamProfile,
        .dataSize, .data],
        by simp [ImageFrame.try_from, hw, hh, hbp, hst, imageQueryOrder]⟩
    rcases hts : b.rs2_get_frame_timestamp with e | ts
    · exact ⟨[.timestampDomain, .frameNumber, .streamProfile, .dataSize, .data],
        by simp [ImageFrame.try_from, hw, hh, hbp, hst, hts, imageQueryOrder]⟩
    rcases htsd : b.rs2_get_frame_timestamp_domain with e | tsd
    · exact ⟨[.frameNumber, .streamProfile, .dataSize, .data],
        by simp [ImageFrame.try_from, hw, hh, hbp, hst, hts, htsd, imageQueryOrder]⟩
    rcases hfn : b.rs2_get_frame_number with e | fn
    · exact ⟨[.streamProfile, .dataSize, .data],
        by simp [ImageFrame.try_from, hw, hh, hbp, hst, hts, htsd, hfn, imageQueryOrder]⟩
    rcases hpp : b.rs2_get_frame_stream_profile with e | pp
    · exact ⟨[.dataSize, .data],
        by simp [ImageFrame.try_from, hw, hh, hbp, hst, hts, htsd, hfn, hpp,
          imageQueryOrder]⟩
    rcases hprof : b.profile_construct pp with pe | prof
    · exact ⟨[.dataSize, .data],
        by simp [ImageFrame.try_from, hw, hh, hbp, hst, hts, htsd, hfn, hpp, hprof,
          imageQueryOrder]⟩
    rcases hsz : b.rs2_get_frame_data_size with e | sz
    · exact ⟨[.data],
        by simp [ImageFrame.try_from, hw, hh, hbp, hst, hts, htsd, hfn, hpp, hprof,
          hsz, imageQueryOrder]⟩
    by_cases hne : sz = (w * ht * bpp).tdiv 8
    case neg =>
      exact ⟨[.data],
        by simp [ImageFrame.try_from, hw, hh, hbp, hst, hts, htsd, hfn, hpp, hprof,
          hsz, hne, imageQueryOrder]⟩
    rcases hdp : b.rs2_get_frame_data with e | dp
    · exact ⟨[],
        by simp [ImageFrame.try_from, hw, hh, hbp, hst, hts, htsd, hfn, hpp, hprof,
          hsz, hne, hdp, imageQueryOrder]⟩
    rcases hdom : Rs2TimestampDomain.from_i32 tsd with _ | dom
    · exact ⟨[],
        by simp [ImageFrame.try_from, hw, hh, hbp, hst, hts, htsd, hfn, hpp, hprof,
          hsz, hne, hdp, hdom, imageQueryOrder]⟩
    · exact ⟨[],
        by simp [ImageFrame.try_from, hw, hh, hbp, hst, hts, htsd, hfn, hpp, hprof,
          hsz, hne, hdp, hdom, imageQueryOrder]⟩
  · intro f tr h
    obtain ⟨_, _, _, _, _, _, _, _, _, _, _, _, _, _, _, _, _, _, _, _, _, _, _, _,
      _, _, htr⟩ := image_try_from_ok_inv fptr b f tr h
    exact htr
  · intro e hw; simp [ImageFrame.try_from, hw]
  · intro w e hw hh; simp [ImageFrame.try_from, hw, hh]
  · intro w ht e hw hh hbp; simp [ImageFrame.try_from, hw, hh, hbp]
  · intro w ht bpp e hw hh hbp hst; simp [ImageFrame.try_from, hw, hh, hbp, hst]
  · intro w ht bpp st e hw hh hbp hst hts
    simp [ImageFrame.try_from, hw, hh, hbp, hst, hts]
  · intro w ht bpp st ts e hw hh hbp hst hts htsd
    simp [ImageFrame.try_from, hw, hh, hbp, hst, hts, htsd]
  · intro w ht bpp st ts tsd e hw hh hbp hst hts htsd hfn
    simp [ImageFrame.try_from, hw, hh, hbp, hst, hts, htsd, hfn]
  · intro w ht bpp st ts tsd fn e hw hh hbp hst hts htsd hfn hpp
    simp [ImageFrame.try_from, hw, hh, hbp, hst, hts, htsd, hfn, hpp]
  · intro w ht bpp st ts tsd fn pp pe hw hh hbp hst hts htsd hfn hpp hprof
    simp [ImageFrame.try_from, hw, hh, hbp, hst, hts, htsd, hfn, hpp, hprof]
  · intro w ht bpp st ts tsd fn pp prof e hw hh hbp hst hts htsd hfn hpp hprof hsz
    simp [ImageFrame.try_from, hw, hh, hbp, hst, hts, htsd, hfn, hpp, hprof, hsz]
  · intro w ht bpp st ts tsd fn pp prof sz e hw hh hbp hst hts htsd hfn hpp hprof
      hsz hne hdp
    subst hne
    simp [ImageFrame.try_from, hw, hh, hbp, hst, hts, htsd, hfn, hpp, hprof, hsz,
      hdp, imageQueryOrder]
  · intro f tr h
    obtain ⟨w, ht, bpp, st, ts, tsd, fn, pp, prof, sz, dp, dom, hw, hh, hbp, hst,
      hts, htsd, hfn, hpp, hprof, hsz, _, hdp, hdom, hf, _⟩ :=
      image_try_from_ok_inv fptr b f tr h
    exact ⟨w, ht, bpp, st, ts, tsd, fn, pp, prof, sz, dp, dom, hw, hh, hbp, hst,
      hts, htsd, hfn, hpp, hprof, hsz, hdp, hdom, hf⟩

/-- C2 witness: a handle whose width query fails aborts construction with
the width-tagged error after issuing only the width query; a fully healthy
handle issues all ten queries in `imageQueryOrder` and returns a fully
populated frame. -/
theorem image_tryfrom_query_order_witness :
    ImageFrame.try_from 1 imageBackendNoWidth =
      (.value (.error (.frame (.couldNotGetWidth .cameraDisconnected
        "Object monitor is shut down"))), [.width])
    ∧ (ImageFrame.try_from 1 imageBackendOk).2 = imageQueryOrder :=
  ⟨(image_tryfrom_query_order 1 imageBackendNoWidth).2.2.1 errDisconnected rfl,
   (image_tryfrom_query_order 1 imageBackendOk).2.1 frame640 imageQueryOrder rfl⟩

/-- Iterator state invariant: starting at column `r`, row `q` (with `r`
within the width), the `k`-th remaining item is the pixel at row-major
position `q * width + r + k`, if that position is within the frame. -/
theorem iter_nth_state (f : ImageFrame) (hw : 0 < f.width) :
    ∀ (k q r : Nat), r < f.width →
      Iter.nth { frame := f, column := r, row := q } k =
        (if q * f.width + r + k < f.width * f.height then
          some (ImageFrame.get_unchecked f ((q * f.width + r + k) % f.width)
            ((q * f.width + r + k) / f.width))
        else none) := by
  intro k
  induction k with
  | zero =>
    intro q r hr
    rw [Nat.add_zero]
    by_cases hq : f.height ≤ q
    · have hcond : ¬ (q * f.width + r < f.width * f.height) := by
        have h1 : f.width * f.height ≤ f.width * q := Nat.mul_le_mul_left _ hq
        have h2 : f.width * q = q * f.width := Nat.mul_comm _ _
        omega
      simp [Iter.nth, Iter.next, hq, hcond]
    · have hq' : q < f.height := Nat.lt_of_not_le hq
      have hcond : q * f.width + r < f.width * f.height := by
        have h1 : q * f.width + r < (q + 1) * f.width := by
          rw [Nat.succ_mul]; omega
        have h2 : (q + 1) * f.width ≤ f.height * f.width :=
          Nat.mul_le_mul_right _ (Nat.succ_le_of_lt hq')
        have h3 : f.height * f.width = f.width * f.height := Nat.mul_comm _ _
        omega
      have hmod : (q * f.width + r) % f.width = r := by
        rw [Nat.mul_comm, Nat.mul_add_mod, Nat.mod_eq_of_lt hr]
      have hdiv : (q * f.width + r) / f.width = q := by
        rw [Nat.mul_comm, Nat.mul_add_div hw, Nat.div_eq_of_lt hr, Nat.add_zero]
      by_cases hcol : f.width ≤ r + 1 <;>
        simp [Iter.nth, Iter.next, Nat.not_le.2 hr, Nat.not_le.2 hq', hcol,
          hcond, hmod, hdiv]
  | succ k ih =>
    intro q r hr
    by_cases hq : f.height ≤ q
    · have hcond : ¬ (q * f.width + r + (k + 1) < f.width * f.height) := by
        have h1 : f.width * f.height ≤ f.width * q := Nat.mul_le_mul_left _ hq
        have h2 : f.width * q = q * f.width := Nat.mul_comm _ _
        omega
      simp [Iter.nth, Iter.next, hq, hcond]
    · have hq' : q < f.height := Nat.lt_of_not_le hq
      by_cases hcol : f.width ≤ r + 1
      · have hr1 : r + 1 = f.width := Nat.le_antisymm hr hcol
        have harith : (q + 1) * f.width + 0 + k = q * f.width + r + (k + 1) := by
          rw [Nat.succ_mul]; omega
        have hnext : Iter.nth { frame := f, column := r, row := q } (k + 1) =
            Iter.nth { frame := f, column := 0, row := q + 1 } k := by
          simp [Iter.nth, Iter.next, Nat.not_le.2 hr, Nat.not_le.2 hq', hcol]
        rw [hnext, ih (q + 1) 0 hw, harith]
      · have hr' : r + 1 < f.width := Nat.lt_of_not_le hcol
        have harith : q * f.width + (r + 1) + k = q * f.width + r + (k + 1) := by
          omega
        have hnext : Iter.nth { frame := f, column := r, row := q } (k + 1) =
            Iter.nth { frame := f, column := r + 1, row := q } k := by
          simp [Iter.nth, Iter.next, Nat.not_le.2 hr, Nat.not_le.2 hq', hcol]
        rw [hnext, ih q (r + 1) hr', harith]

/-- C10: the row-major pixel iterator started by `ImageFrame::iter` yields,
for every `k < width * height`, the pixel `get_unchecked(k mod width,
k div width)` as its `k`-th item, and yields nothing at and beyond
`width * height` items — in particular nothing at all when the width or the
height is zero. -/
theorem image_iter_row_major (f : ImageFrame) (k : Nat) :
    (k < f.width * f.height →
      Iter.nth (ImageFrame.iter f) k =
        some (ImageFrame.get_unchecked f (k % f.width) (k / f.width)))
    ∧ (f.width * f.height ≤ k → Iter.nth (ImageFrame.iter f) k = none) := by
  constructor
  · intro hk
    have hw : 0 < f.width := by
      rcases Nat.eq_zero_or_pos f.width with h0 | h0
      · exfalso; rw [h0, Nat.zero_mul] at hk; exact Nat.not_lt_zero _ hk
      · exact h0
    have h := iter_nth_state f hw k 0 0 hw
    rw [Nat.zero_mul, Nat.zero_add] at h
    have hstart : ImageFrame.iter f = { frame := f, column := 0, row := 0 } := rfl
    rw [hstart, h, if_pos hk]
  · intro hk
    rcases Nat.eq_zero_or_pos f.width with h0 | hw
    · cases k <;> simp [ImageFrame.iter, Iter.nth, Iter.next, h0]
    · have h := iter_nth_state f hw k 0 0 hw
      rw [Nat.zero_mul, Nat.zero_add] at h
      have hstart : ImageFrame.iter f = { frame := f, column := 0, row := 0 } := rfl
      rw [hstart, h, if_neg (Nat.not_lt.2 hk)]

/-- C10 witness: on the 2x2 frame the fourth item (`k = 3`) is
`get_unchecked(1, 1)` and the fifth (`k = 4`) is absent. -/
theorem image_iter_row_major_witness :
    Iter.nth (ImageFrame.iter frame2x2) 3 =
      some (ImageFrame.get_unchecked frame2x2 (3 % 2) (3 / 2))
    ∧ Iter.nth (ImageFrame.iter frame2x2) 4 = none :=
  ⟨(image_iter_row_major frame2x2 3).1 (by decide),
   (image_iter_row_major frame2x2 4).2 (by decide)⟩

/-- C8: native errors never panic — they become typed failures or the
absent/false/empty result (`get_option` error to `None`, sensor enumeration
error to empty, native set error to `CouldNotSetOption`); `Sensor::extension`
panics (its search returns `none`) exactly when no extension in the fixed
sensor-extension allowlist answers the is-extendable-to query affirmatively;
and the only panic outcomes of image-frame construction are an out-of-range
timestamp-domain value or a violated debug assertion on a successfully
queried size — never a filled native error. -/
theorem panic_discipline (envS : SensorEnv) (envD : DeviceEnv) (b : ImageFrameBackend) :
    (Sensor.extension envS = none ↔
      ∀ ext ∈ SENSOR_EXTENSIONS, Sensor.extendableToBool envS ext = false)
    ∧ (∀ o e, envS.rs2_get_option o = .error e → Sensor.get_option envS o = none)
    ∧ (∀ e, envD.rs2_query_sensors = .error e → Device.sensors envD = ([], []))
    ∧ (∀ o v e, Sensor.supports_option envS o = true →
        Sensor.is_option_read_only envS o = false →
        envS.rs2_set_option o v = .error e →
        (Sensor.set_option envS o v).1 = .error (.couldNotSetOption e.exception e.message))
    ∧ (∀ fptr m tr, ImageFrame.try_from fptr b = (.panicked m, tr) →
        (∃ w ht bpp sz, b.rs2_get_frame_width = .ok w
          ∧ b.rs2_get_frame_height = .ok ht
          ∧ b.rs2_get_frame_bits_per_pixel = .ok bpp
          ∧ b.rs2_get_frame_data_size = .ok sz
          ∧ sz ≠ (w * ht * bpp).tdiv 8)
        ∨ (∃ tsd, b.rs2_get_frame_timestamp_domain = .ok tsd
          ∧ Rs2TimestampDomain.from_i32 tsd = none)) := by
  refine ⟨?_, ?_, ?_, ?_, ?_⟩
  · constructor
    · intro h ext hmem
      have := List.find?_eq_none.mp h ext hmem
      simpa using this
    · intro h
      apply List.find?_eq_none.mpr
      intro ext hmem
      simp [h ext hmem]
  · intro o e h
    by_cases hs : Sensor.supports_option envS o <;> simp [Sensor.get_option, hs, h]
  · intro e h; simp [Device.sensors, h]
  · intro o v e hsup hro hset
    simp [Sensor.set_option, hsup, hro, check_rs2_error, hset]
  · intro fptr m tr h
    rcases hw : b.rs2_get_frame_width with e | w
    · simp [ImageFrame.try_from, hw] at h
    rcases hh : b.rs2_get_frame_height with e | ht
    · simp [ImageFrame.try_from, hw, hh] at h
    rcases hbp : b.rs2_get_frame_bits_per_pixel with e | bpp
    · simp [ImageFrame.try_from, hw, hh, hbp] at h
    rcases hst : b.rs2_get_frame_stride_in_bytes with e | st
    · simp [ImageFrame.try_from, hw, hh, hbp, hst] at h
    rcases hts : b.rs2_get_frame_timestamp with e | ts
    · simp [ImageFrame.try_from, hw, hh, hbp, hst, hts] at h
    rcases htsd : b.rs2_get_frame_timestamp_domain with e | tsd
    · simp [ImageFrame.try_from, hw, hh, hbp, hst, hts, htsd] at h
    rcases hfn : b.rs2_get_frame_number with e | fn
    · simp [ImageFrame.try_from, hw, hh, hbp, hst, hts, htsd, hfn] at h
    rcases hpp : b.rs2_get_frame_stream_profile with e | pp
    · simp [ImageFrame.try_from, hw, hh, hbp, hst, hts, htsd, hfn, hpp] at h
    rcases hprof : b.profile_construct pp with pe | prof
    · simp [ImageFrame.try_from, hw, hh, hbp, hst, hts, htsd, hfn, hpp, hprof] at h
    rcases hsz : b.rs2_get_frame_data_size with e | sz
    · simp [ImageFrame.try_from, hw, hh, hbp, hst, hts, htsd, hfn, hpp, hprof, hsz] at h
    by_cases hne : sz = (w * ht * bpp).tdiv 8
    case neg => exact .inl ⟨w, ht, bpp, sz, rfl, rfl, rfl, rfl, hne⟩
    subst hne
    rcases hdp : b.rs2_get_frame_data with e | dp
    · simp [ImageFrame.try_from, hw, hh, hbp, hst, hts, htsd, hfn, hpp, hprof,
        hsz, hdp] at h
    rcases hdom : Rs2TimestampDomain.from_i32 tsd with _ | dom
    · exact .inr ⟨tsd, rfl, hdom⟩
    · simp [ImageFrame.try_from, hw, hh, hbp, hst, hts, htsd, hfn, hpp, hprof,
        hsz, hdp, hdom] at h

/-- C8 witness: on a sensor whose native calls all fail, the extension
search finds no match (the panic case), the option getter is absent, and a
failed sensor-list query enumerates as empty. -/
theorem panic_discipline_witness :
    Sensor.extension sensorEnvDown = none
    ∧ Sensor.get_option sensorEnvDown .gain = none
    ∧ Device.sensors deviceEnvDown = ([], []) := by
  have h := panic_discipline sensorEnvDown deviceEnvDown imageBackendOk
  exact ⟨h.1.mpr (by decide), h.2.1 .gain errDisconnected rfl,
    h.2.2.1 errDisconnected rfl⟩
